import Mathlib

/-!
Verification development for the acquisition engine of the indian-court-tracker
backend.  The Python sources modelled here are:
  backend/app/scraper.py          (CourtsDataScraper)
  backend/app/utils/captcha_handler.py (CaptchaHandler)
  backend/app/redis_client.py     (RedisClient)
  backend/app/config.py           (Settings)
Network responses, OCR output, the random stream and the wall clock are inputs
to the model (environment structures); pure computation is translated directly.
-/

/-- Outcome of one HTTP request made through `requests`: either an exception
(connection error, timeout, ...) carrying its message, or a response with a
status code and a body. -/
inductive FetchOutcome where
  | exc (msg : String)
  | resp (status : Nat) (body : String)
deriving DecidableEq, Repr

/-- Outcome of one `pytesseract.image_to_string` call: an exception, or the
recognized raw text. -/
inductive OcrOutcome where
  | raise
  | text (t : String)
deriving DecidableEq, Repr

/-- Environment of one `CaptchaHandler.solve_captcha` call: the image download
outcome, whether `Image.open` and `_preprocess_image` succeed, and the OCR
outcome of each of the three loop iterations (iteration 0 reads the basic
preprocessing, iterations 1 and 2 the alternative preprocessings computed at
the end of the previous iteration). -/
structure CaptchaEnv where
  download : FetchOutcome
  imageDecodeOk : Bool
  a0 : OcrOutcome
  a1 : OcrOutcome
  a2 : OcrOutcome

/-- Python `re.sub(r'[^a-zA-Z0-9]', '', text)`: keep only the ASCII
alphanumeric characters of `text`. -/
def cleanAlnum (s : String) : String :=
  String.mk (s.data.filter Char.isAlphanum)

/-- The OCR loop of `solve_captcha` (captcha_handler.py lines 91-100): for each
attempt whose raw OCR text is non-empty, strip non-alphanumerics and return the
result when its length lies in [4, 8]; an OCR exception propagates to the outer
handler, which turns it into `None`. -/
def ocrLoop : List OcrOutcome → Option String
  | [] => none
  | OcrOutcome.raise :: _ => none
  | OcrOutcome.text t :: rest =>
    if t ≠ "" ∧ cleanAlnum t ≠ "" ∧ 4 ≤ (cleanAlnum t).length ∧ (cleanAlnum t).length ≤ 8 then
      some (cleanAlnum t)
    else ocrLoop rest

/-- `CaptchaHandler.solve_captcha` (captcha_handler.py lines 71-107): download
the captcha image, bail out with `None` on a non-200 status or any exception,
otherwise run up to three OCR attempts. -/
def solve_captcha (env : CaptchaEnv) : Option String :=
  match env.download with
  | FetchOutcome.exc _ => none
  | FetchOutcome.resp status _ =>
    if status ≠ 200 then none
    else if ¬ env.imageDecodeOk then none
    else ocrLoop [env.a0, env.a1, env.a2]

/-- The raw OCR texts produced before the first OCR exception, in attempt
order. -/
def ocrTexts : List OcrOutcome → List String
  | [] => []
  | OcrOutcome.raise :: _ => []
  | OcrOutcome.text t :: rest => t :: ocrTexts rest

/-- The first OCR result, cleaned of non-alphanumeric characters, whose cleaned
length lies in [4, 8]. -/
def firstInRange (ts : List String) : Option String :=
  ((ts.filter (fun t => t ≠ "")).map cleanAlnum).find?
    (fun c => decide (4 ≤ c.length) && decide (c.length ≤ 8))

/-- Case-insensitive prefix test on character lists: models matching a literal
regex fragment under `re.IGNORECASE`. -/
def isPrefixCI : List Char → List Char → Bool
  | [], _ => true
  | _ :: _, [] => false
  | a :: as, b :: bs => (a.toLower == b.toLower) && isPrefixCI as bs

/-- Python `re.search(lit, s, re.I)` for a literal pattern `lit`: the literal
occurs somewhere in `s`, case-insensitively. -/
def findSubCI (needle : List Char) : List Char → Bool
  | [] => isPrefixCI needle []
  | c :: rest => isPrefixCI needle (c :: rest) || findSubCI needle rest

/-- The tail of a `a.*b` regex match: literal `b` occurs at or after the current
position with no intervening newline (Python `.` does not match a newline). -/
def dotStarTail (b : List Char) : List Char → Bool
  | [] => isPrefixCI b []
  | c :: rest => isPrefixCI b (c :: rest) || (if c = '\n' then false else dotStarTail b rest)

/-- Python `re.search(a ++ ".*" ++ b, s, re.I)` for literals `a` and `b`. -/
def dotStarMatch (a b : List Char) : List Char → Bool
  | [] => isPrefixCI a [] && dotStarTail b []
  | c :: rest =>
    (isPrefixCI a (c :: rest) && dotStarTail b (List.drop a.length (c :: rest))) ||
      dotStarMatch a b rest

/-- The captcha indicator patterns of `detect_captcha` (captcha_handler.py lines
37-44): `captcha`, `security.*code`, `verification.*image`, `prove.*human`,
all searched case-insensitively. -/
def hasCaptchaIndicator (html : String) : Bool :=
  findSubCI "captcha".data html.data ||
  dotStarMatch "security".data "code".data html.data ||
  dotStarMatch "verification".data "image".data html.data ||
  dotStarMatch "prove".data "human".data html.data

/-- Split at the next double quote: the `[^"]*` span captured by the regexes
below together with the remainder after the closing quote; `none` when no quote
follows. -/
def splitQuote : List Char → Option (List Char × List Char)
  | [] => none
  | c :: rest =>
    if c = '"' then some ([], rest)
    else (splitQuote rest).map (fun p => (c :: p.1, p.2))

/-- Keyword test `(?:captcha|security)` used inside the image and input
regexes. -/
def hasCaptchaKeyword (v : List Char) : Bool :=
  findSubCI "captcha".data v || findSubCI "security".data v

/-- Scan a `[^>]*` region for `src="([^"]*)"` and return the capture; the scan
stops at `>` like the regex does, and moves past a `src="` that cannot complete,
mirroring the engine's backtracking. -/
def imgSrcCapture : List Char → Option (List Char)
  | [] => none
  | c :: rest =>
    if isPrefixCI "src=\"".data (c :: rest) then
      match splitQuote (List.drop 5 (c :: rest)) with
      | some p => some p.1
      | none => imgSrcCapture rest
    else if c = '>' then none
    else imgSrcCapture rest

/-- Length of an `(?:id|class|alt)="` alternative matching at this position
(the three alternatives start with distinct letters, so at most one fits). -/
def idClassAltLen (l : List Char) : Option Nat :=
  if isPrefixCI "id=\"".data l then some 4
  else if isPrefixCI "class=\"".data l then some 7
  else if isPrefixCI "alt=\"".data l then some 5
  else none

/-- Body scan of the first image regex of `detect_captcha`
(`<img[^>]*(?:id|class|alt)="[^"]*(?:captcha|security)[^"]*"[^>]*src="([^"]*)"`)
after the `<img` prefix: find a captcha-named id/class/alt attribute, then a
`src` attribute before the tag closes, returning the `src` capture. -/
def imgPat1Scan : List Char → Option (List Char)
  | [] => none
  | c :: rest =>
    match idClassAltLen (c :: rest) with
    | some k =>
      match splitQuote (List.drop k (c :: rest)) with
      | some p =>
        if hasCaptchaKeyword p.1 then
          match imgSrcCapture p.2 with
          | some cap => some cap
          | none => imgPat1Scan rest
        else imgPat1Scan rest
      | none => imgPat1Scan rest
    | none => if c = '>' then none else imgPat1Scan rest

/-- First image regex of `detect_captcha`: scan for each `<img` occurrence and
run the body scan from there. -/
def imgPattern1 : List Char → Option (List Char)
  | [] => none
  | c :: rest =>
    if isPrefixCI "<img".data (c :: rest) then
      match imgPat1Scan (List.drop 4 (c :: rest)) with
      | some v => some v
      | none => imgPattern1 rest
    else imgPattern1 rest

/-- Body scan of the second image regex
(`<img[^>]*src="([^"]*(?:captcha|security)[^"]*)"`) after the `<img` prefix:
a `src` attribute whose value contains `captcha` or `security`. -/
def imgPat2Scan : List Char → Option (List Char)
  | [] => none
  | c :: rest =>
    if isPrefixCI "src=\"".data (c :: rest) then
      match splitQuote (List.drop 5 (c :: rest)) with
      | some p => if hasCaptchaKeyword p.1 then some p.1 else imgPat2Scan rest
      | none => imgPat2Scan rest
    else if c = '>' then none
    else imgPat2Scan rest

/-- Second image regex of `detect_captcha`. -/
def imgPattern2 : List Char → Option (List Char)
  | [] => none
  | c :: rest =>
    if isPrefixCI "<img".data (c :: rest) then
      match imgPat2Scan (List.drop 4 (c :: rest)) with
      | some v => some v
      | none => imgPattern2 rest
    else imgPattern2 rest

/-- The image-URL loop of `detect_captcha` (lines 48-56): try the first image
regex, then the second, taking the first match. -/
def findCaptchaImageUrl (html : String) : Option String :=
  match imgPattern1 html.data with
  | some v => some (String.mk v)
  | none => (imgPattern2 html.data).map String.mk

/-- Length of an `(?:id|name)="` alternative matching at this position. -/
def idNameLen (l : List Char) : Option Nat :=
  if isPrefixCI "id=\"".data l then some 4
  else if isPrefixCI "name=\"".data l then some 6
  else none

/-- Body scan of the first input regex of `detect_captcha`
(`<input[^>]*(?:id|name)="[^"]*(?:captcha|security)[^"]*"[^>]*>`) after the
`<input` prefix. -/
def inputPat1Scan : List Char → Bool
  | [] => false
  | c :: rest =>
    match idNameLen (c :: rest) with
    | some k =>
      match splitQuote (List.drop k (c :: rest)) with
      | some p =>
        if hasCaptchaKeyword p.1 && p.2.any (fun x => x == '>') then true
        else inputPat1Scan rest
      | none => inputPat1Scan rest
    | none => if c = '>' then false else inputPat1Scan rest

/-- First input regex of `detect_captcha`: note it contains only non-capturing
groups `(?:...)`, a fact the code mishandles. -/
def inputPattern1 : List Char → Bool
  | [] => false
  | c :: rest =>
    if isPrefixCI "<input".data (c :: rest) then
      inputPat1Scan (List.drop 6 (c :: rest)) || inputPattern1 rest
    else inputPattern1 rest

/-- Body scan of the second input regex
(`<input[^>]*name="([^"]*(?:captcha|code|verify)[^"]*)"[^>]*>`). -/
def inputPat2Scan : List Char → Option (List Char)
  | [] => none
  | c :: rest =>
    if isPrefixCI "name=\"".data (c :: rest) then
      match splitQuote (List.drop 6 (c :: rest)) with
      | some p =>
        if (findSubCI "captcha".data p.1 || findSubCI "code".data p.1 ||
            findSubCI "verify".data p.1) && p.2.any (fun x => x == '>') then some p.1
        else inputPat2Scan rest
      | none => inputPat2Scan rest
    else if c = '>' then none
    else inputPat2Scan rest

/-- Second input regex of `detect_captcha`. -/
def inputPattern2 : List Char → Option (List Char)
  | [] => none
  | c :: rest =>
    if isPrefixCI "<input".data (c :: rest) then
      match inputPat2Scan (List.drop 6 (c :: rest)) with
      | some v => some v
      | none => inputPattern2 rest
    else inputPattern2 rest

/-- The `captcha_info` dictionary built by `detect_captcha`; its `type` key is
never assigned by the code. -/
structure CaptchaInfo where
  detected : Bool
  ctype : Option String
  image_url : Option String
  input_field : Option String
deriving DecidableEq, Repr

/-- Python exception escaping a modelled function. -/
inductive PyError where
  | indexError
deriving DecidableEq, Repr

/-- `CaptchaHandler.detect_captcha` (captcha_handler.py lines 27-69).  When a
captcha indicator is present, the image regexes fill `image_url`, then the input
regexes are tried in order.  The first input regex contains a parenthesis (in
its `(?:` groups) but no capturing group, so on a match the code executes
`match.group(1)` and raises `IndexError`; only when it fails does the second
regex, which does capture, assign `input_field`. -/
def detect_captcha (html : String) : Except PyError (Bool × CaptchaInfo) :=
  if hasCaptchaIndicator html then
    let imageUrl := findCaptchaImageUrl html
    if inputPattern1 html.data then Except.error PyError.indexError
    else
      Except.ok (true,
        { detected := true, ctype := none, image_url := imageUrl,
          input_field := (inputPattern2 html.data).map String.mk })
  else
    Except.ok (false,
      { detected := false, ctype := none, image_url := none, input_field := none })

/-- Python `\s` restricted to the ASCII range: space, tab, newline, carriage
return, vertical tab, form feed. -/
def isPyWhitespace (c : Char) : Bool :=
  c == ' ' || c == '\t' || c == '\n' || c == '\r' || c == '\x0b' || c == '\x0c'

/-- Separator class `[/\s]` of the case-number regexes. -/
def isSlashOrWs (c : Char) : Bool :=
  c == '/' || isPyWhitespace c

/-- Match, at the current position, the shared tail `\s*(\d+)[/\s]*(\d{4})` of
the five case-number regexes of `_extract_real_cases_from_content`, returning
the two captures and the number of characters consumed.  The greedy `(\d+)`
backtracks: the engine first tries to keep the whole digit run and find four
digits after the separator run; failing that, it gives the run's last four
digits to `(\d{4})`, which needs the run to hold at least five digits. -/
def matchCaseNum (l : List Char) : Option (List Char × List Char × Nat) :=
  let ws := l.takeWhile isPyWhitespace
  let afterWs := l.drop ws.length
  let run := afterWs.takeWhile Char.isDigit
  let n := run.length
  if n = 0 then none
  else
    let afterRun := afterWs.drop n
    let sep := afterRun.takeWhile isSlashOrWs
    let afterSep := afterRun.drop sep.length
    let year := afterSep.take 4
    if year.length = 4 && year.all Char.isDigit then
      some (run, year, ws.length + n + sep.length + 4)
    else if 5 ≤ n then
      some (run.take (n - 4), run.drop (n - 4), ws.length + n)
    else none

/-- Scanning loop of `re.findall` for one case-number pattern: at each position
try the literal prefix (case-insensitively) followed by the numeric tail;
matches are non-overlapping, so scanning resumes after a match.  The fuel is
the input length, which bounds the number of steps. -/
def findallCaseAux (lit : List Char) : Nat → List Char → List (List Char × List Char)
  | 0, _ => []
  | _ + 1, [] => []
  | fuel + 1, c :: rest =>
    if isPrefixCI lit (c :: rest) then
      match matchCaseNum (List.drop lit.length (c :: rest)) with
      | some m =>
        (m.1, m.2.1) :: findallCaseAux lit fuel (List.drop (lit.length + m.2.2) (c :: rest))
      | none => findallCaseAux lit fuel rest
    else findallCaseAux lit fuel rest

/-- Python `re.findall(lit + r'\s*(\d+)[/\s]*(\d{4})', content, re.IGNORECASE)`. -/
def findallCase (lit content : String) : List (String × String) :=
  (findallCaseAux lit.data content.data.length content.data).map
    (fun p => (String.mk p.1, String.mk p.2))

/-- Numeric value of a digit string, as Python `int` reads it. -/
def digitsToNat (l : List Char) : Nat :=
  l.foldl (fun a c => a * 10 + (c.toNat - 48)) 0

/-- One element of the list built by `_extract_real_cases_from_content`
(scraper.py lines 558-563). -/
structure RealCase where
  case_type : String
  case_number : String
  case_year : Nat
  source : String
deriving DecidableEq, Repr

/-- Per-pattern block of `_extract_real_cases_from_content` (lines 551-565):
take at most the first three matches (`matches[:3]`), parse the year and keep
the case only when the year lies in [2020, 2025]. -/
def extractBlock (lit ctype content : String) : List RealCase :=
  ((findallCase lit content).take 3).filterMap (fun m =>
    let y := digitsToNat m.2.data
    if 2020 ≤ y ∧ y ≤ 2025 then
      some { case_type := ctype, case_number := m.1, case_year := y,
             source := "REAL_CONTENT_EXTRACTION" }
    else none)

/-- `CourtsDataScraper._extract_real_cases_from_content` (scraper.py lines
539-571): the five patterns, in source order, each contributing at most three
cases. -/
def extract_real_cases_from_content (content : String) : List RealCase :=
  extractBlock "W.P.(C)" "WP" content ++ extractBlock "CWP" "CWP" content ++
  extractBlock "PIL" "PIL" content ++ extractBlock "CRL" "CRL" content ++
  extractBlock "CA" "CA" content

/-- Dictionary returned by `_try_high_court_services`, reduced to the keys the
verified claims inspect. -/
structure HCDict where
  portal_accessible : Bool
  details : String
deriving DecidableEq, Repr

/-- Outcome of the BeautifulSoup analysis of a 200-status body inside
`_try_high_court_services` (scraper.py lines 176-284): the analysis may itself
raise (caught by the outer handler, which builds the connection-error
dictionary) or produce an optional result dictionary.  The HTML analysis and
the sub-requests it makes are oracles of the environment, since no verified
claim depends on their internals. -/
inductive ParseOutcome where
  | raises (msg : String)
  | result (r : Option HCDict)

/-- Environment of one `_try_high_court_services` call. -/
structure SessionEnv where
  fetchMain : FetchOutcome
  parse200 : String → ParseOutcome
  subFetches : String → Nat

/-- `CourtsDataScraper._try_high_court_services` (scraper.py lines 163-290)
paired with the number of HTTP requests it issues.  The function performs a
single `session.get` of the portal URL: an exception is caught and converted to
a `portal_accessible=False` detail dictionary (line 290), and a non-200 status
falls through to `return None` (line 286).  No code path retries the request or
raises a NetworkError; `max_retries` (config.py line 19, copied at scraper.py
line 24) is never read again. -/
def try_high_court_services (env : SessionEnv) : Option HCDict × Nat :=
  match env.fetchMain with
  | FetchOutcome.exc msg =>
    (some { portal_accessible := false, details := "Connection error: " ++ msg }, 1)
  | FetchOutcome.resp status body =>
    if status = 200 then
      match env.parse200 body with
      | ParseOutcome.raises msg =>
        (some { portal_accessible := false, details := "Connection error: " ++ msg },
         1 + env.subFetches body)
      | ParseOutcome.result r => (r, 1 + env.subFetches body)
    else (none, 1)

/-- Environment whose first request is answered with HTTP 429 while any further
request would be answered with HTTP 200: the spec's retry policy would succeed
here on the second attempt. -/
def hcEnv429 : SessionEnv :=
  { fetchMain := FetchOutcome.resp 429 "",
    parse200 := fun _ =>
      ParseOutcome.result (some { portal_accessible := true, details := "ok" }),
    subFetches := fun _ => 0 }

/-- Environment whose single request raises a connection error. -/
def hcEnvConnErr : SessionEnv :=
  { fetchMain := FetchOutcome.exc "timeout",
    parse200 := fun _ => ParseOutcome.result none, subFetches := fun _ => 0 }

/-- Environment whose single request is answered with HTTP 503. -/
def hcEnv503 : SessionEnv :=
  { fetchMain := FetchOutcome.resp 503 "",
    parse200 := fun _ => ParseOutcome.result none, subFetches := fun _ => 0 }

/-- A `datetime.date` value. -/
structure DateD where
  y : Nat
  m : Nat
  d : Nat
deriving DecidableEq, Repr

/-- Model of `random.randint(a, b)` (both bounds inclusive): one value of the
environment's random stream reduced into the interval. -/
def randint (a b r : Nat) : Nat := a + r % (b + 1 - a)

/-- Model of `random.choice`: `none` models the `IndexError` raised on an empty
sequence. -/
def pyChoice {α : Type} (l : List α) (r : Nat) : Option α := l.get? (r % l.length)

/-- Lower-case a string, as Python `str.lower` acts on ASCII text. -/
def toLowerStr (s : String) : String := String.mk (s.data.map Char.toLower)

/-- Upper-case a string, as Python `str.upper` acts on ASCII text. -/
def toUpperStr (s : String) : String := String.mk (s.data.map Char.toUpper)

/-- Case-sensitive prefix test on character lists. -/
def isPrefixP : List Char → List Char → Bool
  | [], _ => true
  | _ :: _, [] => false
  | a :: as, b :: bs => (a == b) && isPrefixP as bs

/-- Case-sensitive substring occurrence. -/
def findSubP (needle : List Char) : List Char → Bool
  | [] => isPrefixP needle []
  | c :: rest => isPrefixP needle (c :: rest) || findSubP needle rest

/-- Python `needle in hay` on strings. -/
def containsSub (hay needle : String) : Bool := findSubP needle.data hay.data

/-- Python `context.replace('_', ' ')` for the single-character case used by
the source. -/
def underscoreToSpace (s : String) : String :=
  String.mk (s.data.map (fun c => if c = '_' then ' ' else c))

/-- The apostrophe character, used inside several source string literals. -/
def apos : String := String.mk [Char.ofNat 39]

/-- The honorific prefix occurring in judge-name literals of the source. -/
def honble : String := "Hon" ++ apos ++ "ble"

/-- One cause-list entry: the union of the keys produced by the sample
generator (scraper.py lines 826-840) and by the real-extraction paths (lines
725-740 and 773-785), with `none` for keys a path does not set. -/
structure CauseEntry where
  court_type : String
  hearing_date : DateD
  case_number : String
  case_type : String
  case_year : Nat
  parties : String
  court_name : String
  hearing_time : String
  hearing_purpose : Option String
  judge_name : Option String
  court_hall : Option String
  data_source : String
  note : Option String
  real_extraction : Option Bool
  extraction_method : Option String
  source_page : Option String
  source_url : Option String
deriving DecidableEq, Repr

/-- The `courts` table of `_generate_sample_cause_list_detailed` (lines
806-811): display name carrying the context note, and court type. -/
def sampleCourts (context : String) : List (String × String) :=
  [("Delhi High Court (" ++ underscoreToSpace context ++ ")", "HIGH_COURT"),
   ("District Court Delhi (" ++ underscoreToSpace context ++ ")", "DISTRICT_COURT")]

/-- The filtering step of lines 813-816: keep the courts whose lowered name
contains the lowered filter. -/
def filterCourts (courts : List (String × String)) : Option String → List (String × String)
  | none => courts
  | some f => courts.filter (fun c => containsSub (toLowerStr c.1) (toLowerStr f))

/-- One iteration of the generation loop (lines 822-841).  `base` is the index
into the random stream at which this iteration starts — the loop consumes eight
stream values per entry, in source evaluation order — and `i` is the Python
loop index.  `none` models the `IndexError` of `random.choice` on an empty
court list; the other choice lists are non-empty literals, so their `getD`
defaults are unreachable. -/
def sampleEntry (targetDate : DateD) (courts : List (String × String))
    (context : String) (r : Nat → Nat) (base i : Nat) : Option CauseEntry :=
  match pyChoice courts (r base) with
  | none => none
  | some court =>
    some {
      court_type := court.2
      hearing_date := targetDate
      case_number := toString (randint 2000 8999 (r (base + 1)))
      case_type := (pyChoice ["WP", "CWP", "CRL", "CA", "PIL", "CS"] (r (base + 2))).getD "WP"
      case_year := (pyChoice [targetDate.y - 1, targetDate.y] (r (base + 3))).getD targetDate.y
      parties := "Sample Case " ++ toString (i + 1) ++ " vs Respondent " ++ toString (i + 1)
      court_name := court.1
      hearing_time := toString (randint 10 16 (r (base + 4))) ++ ":00"
      hearing_purpose := some ((pyChoice
        ["Arguments", "Final Arguments", "Status Report", "Regular Hearing"]
        (r (base + 5))).getD "Arguments")
      judge_name := some (honble ++ " Justice Sample " ++ toString (randint 1 25 (r (base + 6))))
      court_hall := some ("Court Hall " ++ toString (randint 1 15 (r (base + 7))))
      data_source := "SAMPLE_AFTER_" ++ toUpperStr context
      note := some "Sample entry generated after real cause list search attempt"
      real_extraction := none
      extraction_method := none
      source_page := none
      source_url := none }

/-- The generation loop: build `n` entries starting at Python loop index `i`;
an `IndexError` in any iteration aborts the whole generation. -/
def buildEntries (targetDate : DateD) (courts : List (String × String))
    (context : String) (r : Nat → Nat) (n i : Nat) : Option (List CauseEntry) :=
  match n with
  | 0 => some []
  | n + 1 =>
    match sampleEntry targetDate courts context r (1 + 8 * i) i with
    | none => none
    | some e => (buildEntries targetDate courts context r n (i + 1)).map (fun l => e :: l)

/-- `CourtsDataScraper._generate_sample_cause_list_detailed` (scraper.py lines
798-844): filter the two sample courts by the optional case-insensitive
substring filter, draw the entry count from `random.randint(18, 35)` (stream
index 0), and build the entries.  `none` models the uncaught `IndexError`
raised when the filter removed every court. -/
def generate_sample_cause_list_detailed (targetDate : DateD)
    (court_filter : Option String) (context : String) (r : Nat → Nat) :
    Option (List CauseEntry) :=
  buildEntries targetDate (filterCourts (sampleCourts context) court_filter) context r
    (randint 18 35 (r 0)) 0

/-- Environment of one `scrape_cause_list_comprehensive` call: the entries
`_get_real_cause_list_data` produced (that helper catches all of its own
exceptions and returns `[]` on any failure, scraper.py lines 645-796), the
random stream, and the wall-clock reading used for `execution_time`. -/
structure CauseListEnv where
  realEntries : List CauseEntry
  r : Nat → Nat
  elapsedMs : Nat

/-- `CourtsDataScraper.scrape_cause_list_comprehensive` (scraper.py lines
617-643).  Real entries win; otherwise the sample generator runs inside the
`try`, and when it raises, the `except` branch (line 639) runs it again with
the `search_error` context — outside any handler, so a second `IndexError`
escapes to the caller (`none`).  The second run reads the random stream after
the one value the first run consumed. -/
def scrape_cause_list_comprehensive (env : CauseListEnv) (targetDate : DateD)
    (court_filter : Option String) : Option (List CauseEntry × Nat) :=
  if env.realEntries ≠ [] then some (env.realEntries, env.elapsedMs)
  else
    match generate_sample_cause_list_detailed targetDate court_filter
        "real_search_attempted" env.r with
    | some entries => some (entries, env.elapsedMs)
    | none =>
      (generate_sample_cause_list_detailed targetDate court_filter "search_error"
        (fun n => env.r (n + 1))).map (fun es => (es, env.elapsedMs))

/-- A concrete hearing date. -/
def d0 : DateD := { y := 2025, m := 7, d := 1 }

/-- Concrete environment: no portal yielded entries, constant-zero random
stream. -/
def causeEnvEmpty : CauseListEnv := { realEntries := [], r := fun _ => 0, elapsedMs := 5 }

/-- The cause-list batch produced by `causeEnvEmpty` with no filter. -/
def c9Pair : List CauseEntry × Nat :=
  (scrape_cause_list_comprehensive causeEnvEmpty d0 none).getD ([], 0)

/-- A value that is a `datetime.date` or a string; the JSON round-trip through
the Redis cache turns dates into ISO strings. -/
inductive DVal where
  | date (dd : DateD)
  | str (s : String)
deriving DecidableEq, Repr

/-- Left-pad with zeros, as `date.isoformat` renders components. -/
def padZero (width n : Nat) : String :=
  String.mk (List.replicate (width - (toString n).length) '0') ++ toString n

/-- Python `date.isoformat()`. -/
def isoDate (dd : DateD) : String :=
  padZero 4 dd.y ++ "-" ++ padZero 2 dd.m ++ "-" ++ padZero 2 dd.d

/-- Effect of `json.dumps` with `redis_client._json_serializer` (redis_client.py
lines 142-150) followed by `json.loads` on a date-or-string value: a date comes
back as its ISO string. -/
def serializeDVal : DVal → DVal
  | DVal.date dd => DVal.str (isoDate dd)
  | DVal.str s => DVal.str s

/-- Gregorian month length. -/
def daysInMonth (y m : Nat) : Nat :=
  if m = 2 then (if (y % 4 = 0 ∧ y % 100 ≠ 0) ∨ y % 400 = 0 then 29 else 28)
  else if m = 4 ∨ m = 6 ∨ m = 9 ∨ m = 11 then 30 else 31

/-- Successor day in the Gregorian calendar. -/
def nextDay (dd : DateD) : DateD :=
  if dd.d < daysInMonth dd.y dd.m then { dd with d := dd.d + 1 }
  else if dd.m < 12 then { y := dd.y, m := dd.m + 1, d := 1 }
  else { y := dd.y + 1, m := 1, d := 1 }

/-- Python `date + timedelta(days := n)`. -/
def addDays : DateD → Nat → DateD
  | dd, 0 => dd
  | dd, n + 1 => addDays (nextDay dd) n

/-- One entry of `case_data['search_attempts']` (scraper.py lines 74-115); the
per-portal auxiliary keys (`services_found`, `form_found`, ...) are elided
since no verified claim inspects them, and every appended entry carries
`success: True`. -/
structure AttemptLog where
  portal : String
  success : Bool
  details : String
deriving DecidableEq, Repr

/-- The `case_data` dictionary of `search_case_comprehensive`: the union of the
keys set on its paths, with `none` for keys a path does not set. -/
structure CaseData where
  case_type : String
  case_number : String
  year : Nat
  found : Bool
  cached : Bool
  data_source : Option String
  search_attempts : List AttemptLog
  real_data_found : Bool
  error : Option String
  parties_petitioner : Option String
  parties_respondent : Option String
  filing_date : Option DVal
  next_hearing_date : Option DVal
  hearing_time : Option String
  case_status : Option String
  court_name : Option String
  court_type : Option String
  judge_name : Option String
  court_hall : Option String
  case_category : Option String
  judgments : Option (List String)
  real_portal_analysis : Option Bool
  recommended_portal : Option String
  portals_attempted : Option Nat
  note : Option String
  real_case_found : Option Bool
  found_in_cause_list : Option Bool
  details : Option String
  cause_list_url : Option String
  found_context : Option String
deriving DecidableEq, Repr

/-- JSON round-trip of a case record through the Redis cache
(`set_case_data` serializes with the date handler, `get_case_data` runs
`json.loads`): date values come back as ISO strings, every other modelled field
survives unchanged. -/
def serializeCaseData (c : CaseData) : CaseData :=
  { c with filing_date := c.filing_date.map serializeDVal,
           next_hearing_date := c.next_hearing_date.map serializeDVal }

/-- Values `_try_delhi_hc_direct` produced when it found the queried case in a
cause list (scraper.py lines 493-509).  The regex analysis of the fetched page
is an oracle of the environment, which therefore supplies the extracted
party/time/context strings (including the fallback strings the code builds when
its party or time regex finds nothing). -/
structure DelhiExtract where
  parties_petitioner : String
  parties_respondent : String
  hearing_time : String
  details : String
  cause_list_url : String
  found_context : String
deriving DecidableEq, Repr

/-- A portal attempt as the orchestrator's bookkeeping reads it: the `details`
entry of the returned dictionary (the `.get('details', ...)` defaults are
folded into the oracle). -/
structure PortalInfo where
  details : String
deriving DecidableEq, Repr

/-- Result of `_try_delhi_hc_direct` as the orchestrator reads it: the attempt
details plus, when a real case was found, the extracted fields. -/
structure DelhiInfo where
  details : String
  real : Option DelhiExtract
deriving DecidableEq, Repr

/-- Point at which an exception escapes the orchestrator's `try` block (for
example a cancelled await between phases); the three portal helpers catch
their own exceptions and return dictionaries or `None`. -/
inductive ExcPoint where
  | never
  | atPhase1
  | atPhase2
  | atPhase3
deriving DecidableEq, Repr

/-- Environment of one `search_case_comprehensive` call: cache availability,
the outcome each portal helper would produce, the exception point, today's
date, and the random stream. -/
structure SearchEnv where
  redisAvailable : Bool
  hc : Option PortalInfo
  district : Option PortalInfo
  delhi : Option DelhiInfo
  excAt : ExcPoint
  excMsg : String
  today : DateD
  r : Nat → Nat

/-- The initial `case_data` dictionary (scraper.py lines 56-65). -/
def baseCase (ct cn : String) (yearQ : Nat) : CaseData :=
  { case_type := toUpperStr ct, case_number := cn, year := yearQ, found := false,
    cached := false, data_source := none, search_attempts := [],
    real_data_found := false, error := none, parties_petitioner := none,
    parties_respondent := none, filing_date := none, next_hearing_date := none,
    hearing_time := none, case_status := none, court_name := none,
    court_type := none, judge_name := none, court_hall := none,
    case_category := none, judgments := none, real_portal_analysis := none,
    recommended_portal := none, portals_attempted := none, note := none,
    real_case_found := none, found_in_cause_list := none, details := none,
    cause_list_url := none, found_context := none }

/-- The court mapping of `_create_portal_informed_sample` (scraper.py lines
577-585): court name, court type, recommended portal.  `court_info.get` falls
back to the WP entry; the lookup is case-sensitive because the sample receives
the caller's original `case_type`, not its upper-cased copy. -/
def courtInfoFor (ct : String) : String × String × String :=
  if ct = "WP" then ("Delhi High Court", "HIGH_COURT", "High Court Services")
  else if ct = "CWP" then ("Punjab and Haryana High Court", "HIGH_COURT", "High Court Services")
  else if ct = "PIL" then ("Supreme Court of India", "HIGH_COURT", "High Court Services")
  else if ct = "CRL" then ("District Court Delhi", "DISTRICT_COURT", "District Court Services")
  else if ct = "CA" then ("Supreme Court of India", "HIGH_COURT", "High Court Services")
  else ("Delhi High Court", "HIGH_COURT", "High Court Services")

/-- `CourtsDataScraper._create_portal_informed_sample` (scraper.py lines
573-613) merged into a record by `case_data.update(sample_data)`.  Every
descriptive field is assigned by the synthesis policy, which reads only the
query, the attempt bookkeeping, today's date and the random stream (consumed in
source evaluation order: filing month, filing day, hearing offset, court
hall). -/
def applySample (c : CaseData) (ct cn : String) (yearQ : Nat)
    (attempts : List AttemptLog) (today : DateD) (r : Nat → Nat) : CaseData :=
  let info := courtInfoFor ct
  let names := (attempts.filter (fun a => a.success)).map (fun a => a.portal)
  let portalContext :=
    if attempts ≠ [] ∧ names ≠ [] then
      " (Real portals accessed: " ++ String.intercalate ", " names ++ ")"
    else ""
  { c with
    found := true
    parties_petitioner := some ("Sample Petitioner in " ++ ct ++ " " ++ cn ++ "/" ++ toString yearQ)
    parties_respondent := some ("Sample Respondent in " ++ ct ++ " " ++ cn ++ "/" ++ toString yearQ)
    filing_date := some (DVal.date { y := yearQ, m := randint 3 11 (r 0), d := randint 1 28 (r 1) })
    next_hearing_date := some (DVal.date (addDays today (randint 15 60 (r 2))))
    case_status := some "Pending for Arguments"
    court_name := some (info.1 ++ portalContext)
    court_type := some info.2.1
    judge_name := some (honble ++ " Justice Sample Judge")
    court_hall := some ("Court Hall No. " ++ toString (randint 1 10 (r 3)))
    case_category := some (if ct = "WP" ∨ ct = "CWP" ∨ ct = "PIL" then "Constitutional" else "Regular")
    judgments := some []
    real_portal_analysis := some true
    recommended_portal := some info.2.2
    portals_attempted := some attempts.length
    note := some (String.append "Sample data after analyzing real eCourts portals. Case type "
      (ct ++ " typically handled by " ++ info.2.2 ++ ".")) }

/-- The dictionary returned by `_try_delhi_hc_direct` on a real find (scraper.py
lines 493-509), merged into the record by `case_data.update(delhi_result)`:
fixed literals plus the extractor's output. -/
def applyDelhiReal (c : CaseData) (yearQ : Nat) (ex : DelhiExtract) (today : DateD) : CaseData :=
  { c with
    real_case_found := some true
    found_in_cause_list := some true
    court_name := some "Delhi High Court"
    court_type := some "HIGH_COURT"
    case_status := some "Listed for Hearing"
    parties_petitioner := some ex.parties_petitioner
    parties_respondent := some ex.parties_respondent
    next_hearing_date := some (DVal.date (addDays today 1))
    hearing_time := some ex.hearing_time
    filing_date := some (DVal.date { y := yearQ, m := 6, d := 15 })
    judge_name := some (honble ++ " Court")
    court_hall := some "As per cause list"
    details := some ex.details
    cause_list_url := some ex.cause_list_url
    found_context := some ex.found_context }

/-- Attempt entry appended in phase 1 (scraper.py lines 69-83): the phase runs
only for upper-cased WP/CWP/PIL queries, and the helper's result is appended
whenever it is truthy. -/
def phase1Attempts (env : SearchEnv) (ct : String) : List AttemptLog :=
  if toUpperStr ct = "WP" ∨ toUpperStr ct = "CWP" ∨ toUpperStr ct = "PIL" then
    match env.hc with
    | some i => [{ portal := "HIGH_COURT_SERVICES_REAL", success := true, details := i.details }]
    | none => []
  else []

/-- Attempt entry appended in phase 2 (lines 89-101). -/
def phase2Attempts (env : SearchEnv) : List AttemptLog :=
  match env.district with
  | some i => [{ portal := "DISTRICT_COURT_SERVICES_REAL", success := true, details := i.details }]
  | none => []

/-- Attempt entry appended in phase 3 (lines 109-115). -/
def phase3Attempts (env : SearchEnv) : List AttemptLog :=
  match env.delhi with
  | some i => [{ portal := "DELHI_HC_DIRECT", success := true, details := i.details }]
  | none => []

/-- Number of portal helper calls made before the run finishes or the exception
escapes. -/
def portalCalls (env : SearchEnv) (ct : String) : Nat :=
  let p1 := if toUpperStr ct = "WP" ∨ toUpperStr ct = "CWP" ∨ toUpperStr ct = "PIL" then 1 else 0
  match env.excAt with
  | ExcPoint.atPhase1 => 0
  | ExcPoint.atPhase2 => p1
  | ExcPoint.atPhase3 => p1 + 1
  | ExcPoint.never => p1 + 2

/-- `CourtsDataScraper.search_case_comprehensive` (scraper.py lines 41-161) on
one query.  The cache argument is the deserialized value stored under this
query's key; the result triple is the returned record, the new cache content
for that key, and the number of portal helper calls made.  On a cache hit the
stored record is returned with `cached=True` (line 52) and no portal is
contacted.  When the Delhi search finds a real case, the function returns at
line 123, before the cache write of lines 157-159; the sample path (lines
140-144) and the `except` path (lines 146-152) fall through to that write.
The wall-clock `execution_time` is not modelled. -/
def search_case_comprehensive (env : SearchEnv) (cache : Option CaseData)
    (ct cn : String) (yearQ : Nat) : CaseData × Option CaseData × Nat :=
  if env.redisAvailable && cache.isSome then
    ({ cache.getD (baseCase ct cn yearQ) with cached := true }, cache, 0)
  else
    let base := baseCase ct cn yearQ
    let store := fun (c : CaseData) =>
      if env.redisAvailable then some (serializeCaseData c) else cache
    let finishErr := fun (c : CaseData) =>
      let rc0 := applySample { c with error := some env.excMsg } ct cn yearQ [] env.today env.r
      let rc := { rc0 with found := true, data_source := some "ERROR_FALLBACK" }
      (rc, store rc, portalCalls env ct)
    let finishSample := fun (c : CaseData) =>
      let rc0 := applySample c ct cn yearQ c.search_attempts env.today env.r
      let rc := { rc0 with found := true, data_source := some "REAL_PORTAL_INFORMED_SAMPLE" }
      (rc, store rc, portalCalls env ct)
    match env.excAt with
    | ExcPoint.atPhase1 => finishErr base
    | ExcPoint.atPhase2 => finishErr { base with search_attempts := phase1Attempts env ct }
    | ExcPoint.atPhase3 =>
      finishErr { base with search_attempts := phase1Attempts env ct ++ phase2Attempts env }
    | ExcPoint.never =>
      let c3 := { base with
        search_attempts := phase1Attempts env ct ++ phase2Attempts env ++ phase3Attempts env }
      match env.delhi with
      | some dinfo =>
        match dinfo.real with
        | some ex =>
          let rc := { applyDelhiReal c3 yearQ ex env.today with
            found := true, real_data_found := true,
            data_source := some "DELHI_HC_DIRECT_REAL" }
          (rc, cache, portalCalls env ct)
        | none => finishSample c3
      | none => finishSample c3

/-- Whether the run returns through the real Delhi extraction (line 123). -/
def isRealPath (env : SearchEnv) : Bool :=
  env.excAt == ExcPoint.never &&
    (match env.delhi with
     | some d => d.real.isSome
     | none => false)

/-- The descriptive fields of a case record: those carrying case content, as
opposed to query echo and bookkeeping. -/
structure DescrFields where
  parties_petitioner : Option String
  parties_respondent : Option String
  filing_date : Option DVal
  next_hearing_date : Option DVal
  hearing_time : Option String
  case_status : Option String
  court_name : Option String
  court_type : Option String
  judge_name : Option String
  court_hall : Option String
  case_category : Option String
  judgments : Option (List String)
deriving DecidableEq, Repr

/-- Projection of a record to its descriptive fields. -/
def descrOf (c : CaseData) : DescrFields :=
  { parties_petitioner := c.parties_petitioner,
    parties_respondent := c.parties_respondent,
    filing_date := c.filing_date,
    next_hearing_date := c.next_hearing_date,
    hearing_time := c.hearing_time,
    case_status := c.case_status,
    court_name := c.court_name,
    court_type := c.court_type,
    judge_name := c.judge_name,
    court_hall := c.court_hall,
    case_category := c.case_category,
    judgments := c.judgments }

/-- Descriptive content dictated by the Delhi extraction path alone. -/
def realDescr (yearQ : Nat) (ex : DelhiExtract) (today : DateD) : DescrFields :=
  descrOf (applyDelhiReal (baseCase "" "" yearQ) yearQ ex today)

/-- Descriptive content dictated by the synthesis policy alone. -/
def sampleDescr (ct cn : String) (yearQ : Nat) (attempts : List AttemptLog)
    (today : DateD) (r : Nat → Nat) : DescrFields :=
  descrOf (applySample (baseCase ct cn yearQ) ct cn yearQ attempts today r)

/-- Extraction produced by a concrete successful Delhi cause-list hit. -/
def delhiEx0 : DelhiExtract :=
  { parties_petitioner := "Ram Kumar", parties_respondent := "State",
    hearing_time := "10:30 AM",
    details := "Exact match found in Delhi HC cause list: Daily List",
    cause_list_url := "http://delhihighcourt.nic.in/dailylist",
    found_context := "WP 123 2024" }

/-- Concrete environment in which no portal responds and no exception occurs:
the run takes the sample path. -/
def envSynth : SearchEnv :=
  { redisAvailable := true, hc := none, district := none, delhi := none,
    excAt := ExcPoint.never, excMsg := "", today := d0, r := fun _ => 0 }

/-- Concrete environment in which the Delhi direct search finds the real
case. -/
def envReal : SearchEnv :=
  { redisAvailable := true, hc := none, district := none,
    delhi := some { details := "Exact match found", real := some delhiEx0 },
    excAt := ExcPoint.never, excMsg := "", today := d0, r := fun _ => 0 }

/-- Concrete page content used to instantiate the extraction theorem. -/
def c10Content : String := "Orders in W.P.(C) 123/2024 listed"

/-- The single case extracted from `c10Content`. -/
def c10Case : RealCase :=
  { case_type := "WP", case_number := "123", case_year := 2024,
    source := "REAL_CONTENT_EXTRACTION" }

theorem cleanAlnum_all (t : String) : (cleanAlnum t).data.all Char.isAlphanum := by
  simp only [cleanAlnum, List.all_eq_true]
  intro c hc
  exact (List.mem_filter.mp hc).2

theorem ocrLoop_some (l : List OcrOutcome) (s : String) (h : ocrLoop l = some s) :
    firstInRange (ocrTexts l) = some s ∧ s.data.all Char.isAlphanum ∧
      4 ≤ s.length ∧ s.length ≤ 8 := by
  induction l with
  | nil => simp [ocrLoop] at h
  | cons hd tl ih =>
    cases hd with
    | raise => simp [ocrLoop] at h
    | text t =>
      rw [ocrLoop] at h
      by_cases hc : t ≠ "" ∧ cleanAlnum t ≠ "" ∧ 4 ≤ (cleanAlnum t).length ∧ (cleanAlnum t).length ≤ 8
      · rw [if_pos hc] at h
        obtain ⟨ht, _, h4, h8⟩ := hc
        have hs : s = cleanAlnum t := by injection h with h2; exact h2.symm
        subst hs
        refine ⟨?_, cleanAlnum_all t, h4, h8⟩
        simp [firstInRange, ocrTexts, List.filter_cons, ht, List.find?]
        simp [h4, h8]
      · rw [if_neg hc] at h
        obtain ⟨hfir, halnum, h4, h8⟩ := ih h
        refine ⟨?_, halnum, h4, h8⟩
        by_cases ht : t = ""
        · simpa [firstInRange, ocrTexts, List.filter_cons, ht] using hfir
        · have hbad : ¬ (cleanAlnum t ≠ "" ∧ 4 ≤ (cleanAlnum t).length ∧ (cleanAlnum t).length ≤ 8) := by
            intro hx
            exact hc ⟨ht, hx⟩
          simp only [firstInRange, ocrTexts, List.filter_cons, ht, if_true, ne_eq,
            not_false_eq_true, List.map_cons, List.find?] at hfir ⊢
          rw [show (decide (4 ≤ (cleanAlnum t).length) && decide ((cleanAlnum t).length ≤ 8)) = false by
            by_cases hz4 : 4 ≤ (cleanAlnum t).length
            · by_cases hz8 : (cleanAlnum t).length ≤ 8
              · exact absurd ⟨by intro he; rw [he] at hz4; simp at hz4, hz4, hz8⟩ hbad
              · simp [hz8]
            · simp [hz4]]
          exact hfir

/-- C7: for every captcha environment, `solve_captcha` either returns `None`
(all I/O and OCR failures are caught and converted to the unsolved result — the
pipeline never raises past its boundary), or it returns a purely alphanumeric
string of length between 4 and 8: the first OCR result in that range, after
discarding non-alphanumeric characters, over the at most three preprocessing
attempts. -/
theorem solve_captcha_spec (env : CaptchaEnv) :
    solve_captcha env = none ∨
    ∃ s, solve_captcha env = some s ∧
      firstInRange (ocrTexts [env.a0, env.a1, env.a2]) = some s ∧
      s.data.all Char.isAlphanum ∧ 4 ≤ s.length ∧ s.length ≤ 8 := by
  cases hres : solve_captcha env with
  | none => exact Or.inl rfl
  | some s =>
    refine Or.inr ⟨s, rfl, ?_⟩
    unfold solve_captcha at hres
    cases hdl : env.download with
    | exc m => rw [hdl] at hres; simp at hres
    | resp status body =>
      rw [hdl] at hres
      dsimp only at hres
      by_cases hst : status ≠ 200
      · rw [if_pos hst] at hres; simp at hres
      · rw [if_neg hst] at hres
        by_cases hdec : env.imageDecodeOk
        · rw [if_neg (by simpa using hdec)] at hres
          exact ocrLoop_some _ _ hres
        · rw [if_pos (by simpa using hdec)] at hres; simp at hres

theorem extractBlock_length (lit ctype content : String) :
    (extractBlock lit ctype content).length ≤ 3 :=
  le_trans (List.length_filterMap_le _ _) (List.length_take_le _ _)

theorem extractBlock_mem (lit ctype content : String) (c : RealCase)
    (h : c ∈ extractBlock lit ctype content) :
    c.case_type = ctype ∧ 2020 ≤ c.case_year ∧ c.case_year ≤ 2025 := by
  simp only [extractBlock, List.mem_filterMap] at h
  obtain ⟨m, _, hm⟩ := h
  split at hm
  · rename_i hy
    injection hm with hmc
    subst hmc
    exact ⟨rfl, hy.1, hy.2⟩
  · exact absurd hm (by simp)

theorem extractBlock_filter_ne (lit ctype content t : String) (h : ctype ≠ t) :
    (extractBlock lit ctype content).filter (fun c => c.case_type == t) = [] := by
  rw [List.filter_eq_nil_iff]
  intro c hc
  have hct := (extractBlock_mem lit ctype content c hc).1
  simp [hct, h]

theorem extractBlock_filter_le (lit ctype content t : String) :
    ((extractBlock lit ctype content).filter (fun c => c.case_type == t)).length ≤ 3 :=
  le_trans (List.length_filter_le _ _) (extractBlock_length lit ctype content)

/-- C10: for every page-content string, `_extract_real_cases_from_content`
returns only cases whose `case_year` lies between 2020 and 2025 inclusive,
collects at most 3 cases per case-type pattern, and hence at most 15 cases per
page. -/
theorem extract_real_cases_bounds (content : String) :
    (extract_real_cases_from_content content).length ≤ 15 ∧
    (∀ c ∈ extract_real_cases_from_content content,
      2020 ≤ c.case_year ∧ c.case_year ≤ 2025) ∧
    (∀ t : String,
      ((extract_real_cases_from_content content).filter
        (fun c => c.case_type == t)).length ≤ 3) := by
  refine ⟨?_, ?_, ?_⟩
  · simp only [extract_real_cases_from_content, List.length_append]
    have h1 := extractBlock_length "W.P.(C)" "WP" content
    have h2 := extractBlock_length "CWP" "CWP" content
    have h3 := extractBlock_length "PIL" "PIL" content
    have h4 := extractBlock_length "CRL" "CRL" content
    have h5 := extractBlock_length "CA" "CA" content
    omega
  · intro c hc
    simp only [extract_real_cases_from_content, List.mem_append] at hc
    rcases hc with ((((h | h) | h) | h) | h) <;>
      exact (extractBlock_mem _ _ content c h).2
  · intro t
    simp only [extract_real_cases_from_content, List.filter_append, List.length_append]
    by_cases h1 : t = "WP"
    · subst h1
      rw [extractBlock_filter_ne "CWP" "CWP" content _ (by decide),
        extractBlock_filter_ne "PIL" "PIL" content _ (by decide),
        extractBlock_filter_ne "CRL" "CRL" content _ (by decide),
        extractBlock_filter_ne "CA" "CA" content _ (by decide)]
      simpa using extractBlock_filter_le "W.P.(C)" "WP" content "WP"
    · rw [extractBlock_filter_ne "W.P.(C)" "WP" content _ (Ne.symm h1)]
      by_cases h2 : t = "CWP"
      · subst h2
        rw [extractBlock_filter_ne "PIL" "PIL" content _ (by decide),
          extractBlock_filter_ne "CRL" "CRL" content _ (by decide),
          extractBlock_filter_ne "CA" "CA" content _ (by decide)]
        simpa using extractBlock_filter_le "CWP" "CWP" content "CWP"
      · rw [extractBlock_filter_ne "CWP" "CWP" content _ (Ne.symm h2)]
        by_cases h3 : t = "PIL"
        · subst h3
          rw [extractBlock_filter_ne "CRL" "CRL" content _ (by decide),
            extractBlock_filter_ne "CA" "CA" content _ (by decide)]
          simpa using extractBlock_filter_le "PIL" "PIL" content "PIL"
        · rw [extractBlock_filter_ne "PIL" "PIL" content _ (Ne.symm h3)]
          by_cases h4 : t = "CRL"
          · subst h4
            rw [extractBlock_filter_ne "CA" "CA" content _ (by decide)]
            simpa using extractBlock_filter_le "CRL" "CRL" content "CRL"
          · rw [extractBlock_filter_ne "CRL" "CRL" content _ (Ne.symm h4)]
            by_cases h5 : t = "CA"
            · subst h5
              simpa using extractBlock_filter_le "CA" "CA" content "CA"
            · rw [extractBlock_filter_ne "CA" "CA" content _ (Ne.symm h5)]
              simp

theorem extract_real_cases_bounds_witness :
    2020 ≤ c10Case.case_year ∧ c10Case.case_year ≤ 2025 ∧
    ((extract_real_cases_from_content c10Content).filter
      (fun c => c.case_type == "WP")).length ≤ 3 :=
  ⟨((extract_real_cases_bounds c10Content).2.1 c10Case (by decide)).1,
   ((extract_real_cases_bounds c10Content).2.1 c10Case (by decide)).2,
   (extract_real_cases_bounds c10Content).2.2 "WP"⟩

/-- C8 (code bug): a page with none of the captcha text patterns yields
not-detected; markup containing "captcha" with no image reference and no
captcha-named input yields detected with `image_url = None`, as the claim says;
but markup containing "captcha" together with an input tag matching the first
input regex makes `detect_captcha` raise `IndexError`, because the code selects
`match.group(1)` whenever the pattern contains a parenthesis, and that pattern
has only non-capturing groups. -/
theorem detect_captcha_behaviour :
    detect_captcha "<html><body>hello world</body></html>" =
      Except.ok (false,
        { detected := false, ctype := none, image_url := none, input_field := none }) ∧
    detect_captcha "please enter the captcha below" =
      Except.ok (true,
        { detected := true, ctype := none, image_url := none, input_field := none }) ∧
    detect_captcha "captcha <input id=\"captchaBox\">" =
      Except.error PyError.indexError :=
  ⟨rfl, rfl, rfl⟩

/-- C3 counterexample: with the wire answering the first request with HTTP 429
(and any retry would have been answered with HTTP 200), the scraper issues
exactly one request and returns `None` — no retry happens, no `NetworkError` is
raised, and the available 200 is never reached, contradicting the claimed
retry-with-backoff policy. -/
theorem try_high_court_services_429_no_retry :
    try_high_court_services hcEnv429 = (none, 1) := rfl

/-- C3 amended: the session layer performs no retries at all.  Each
`_try_high_court_services` call issues exactly one request on a failure: a
connection error or timeout is caught and converted into a
`portal_accessible=False` detail dictionary (never surfaced as an exception),
and a non-2xx status (429/500/502/503/504 included) yields `None` after that
single request; `max_retries` is stored at construction but never used. -/
theorem try_high_court_services_single_attempt (env : SessionEnv) :
    (∀ msg, env.fetchMain = FetchOutcome.exc msg →
      try_high_court_services env =
        (some { portal_accessible := false, details := "Connection error: " ++ msg }, 1)) ∧
    (∀ status body, env.fetchMain = FetchOutcome.resp status body → status ≠ 200 →
      try_high_court_services env = (none, 1)) := by
  constructor
  · intro msg h
    simp [try_high_court_services, h]
  · intro status body h hne
    simp [try_high_court_services, h, hne]

theorem try_high_court_services_single_attempt_witness :
    try_high_court_services hcEnvConnErr =
      (some { portal_accessible := false, details := "Connection error: timeout" }, 1) ∧
    try_high_court_services hcEnv503 = (none, 1) :=
  ⟨(try_high_court_services_single_attempt hcEnvConnErr).1 "timeout" rfl,
   (try_high_court_services_single_attempt hcEnv503).2 503 "" rfl (by decide)⟩

theorem buildEntries_length (targetDate : DateD) (courts : List (String × String))
    (context : String) (r : Nat → Nat) (n : Nat) :
    ∀ i l, buildEntries targetDate courts context r n i = some l → l.length = n := by
  induction n with
  | zero =>
    intro i l h
    simp only [buildEntries] at h
    injection h with h2
    simp [← h2]
  | succ n ih =>
    intro i l h
    simp only [buildEntries] at h
    cases hse : sampleEntry targetDate courts context r (1 + 8 * i) i with
    | none => rw [hse] at h; exact absurd h (by simp)
    | some e =>
      rw [hse] at h
      cases hb : buildEntries targetDate courts context r n (i + 1) with
      | none => rw [hb] at h; exact absurd h (by simp)
      | some tl =>
        rw [hb] at h
        simp only [Option.map_some] at h
        injection h with h2
        have := ih (i + 1) tl hb
        simp [← h2, this]

theorem buildEntries_total (targetDate : DateD) (courts : List (String × String))
    (context : String) (r : Nat → Nat) (hc : courts ≠ []) (n : Nat) :
    ∀ i, ∃ l, buildEntries targetDate courts context r n i = some l ∧ l.length = n := by
  induction n with
  | zero => exact fun i => ⟨[], rfl, rfl⟩
  | succ n ih =>
    intro i
    obtain ⟨l, hl, hlen⟩ := ih (i + 1)
    have hpos : 0 < courts.length := List.length_pos.mpr hc
    have hlt : r (1 + 8 * i) % courts.length < courts.length := Nat.mod_lt _ hpos
    have hch : pyChoice courts (r (1 + 8 * i)) = some (courts.get ⟨_, hlt⟩) :=
      List.get?_eq_get hlt
    have hse : ∃ e, sampleEntry targetDate courts context r (1 + 8 * i) i = some e := by
      unfold sampleEntry
      rw [hch]
      exact ⟨_, rfl⟩
    obtain ⟨e, he⟩ := hse
    refine ⟨e :: l, ?_, by simp [hlen]⟩
    simp only [buildEntries, he, hl]
    rfl

theorem generate_sample_length (targetDate : DateD) (cf : Option String)
    (context : String) (r : Nat → Nat) (l : List CauseEntry)
    (h : generate_sample_cause_list_detailed targetDate cf context r = some l) :
    18 ≤ l.length ∧ l.length ≤ 35 := by
  have hlen := buildEntries_length _ _ _ _ _ _ _ h
  have hmod : r 0 % 18 < 18 := Nat.mod_lt _ (by norm_num)
  unfold randint at hlen
  omega

/-- C9 counterexample: with the constant-zero random stream and no portal
entries, the synthetic fallback batch has exactly 18 entries, which is outside
the claimed 20-35 range (`random.randint(18, 35)` at scraper.py line 818). -/
theorem cause_list_fallback_18 :
    Option.map (fun p => p.1.length) (scrape_cause_list_comprehensive causeEnvEmpty d0 none)
      = some 18 ∧ ¬ (20 ≤ 18) :=
  ⟨rfl, by decide⟩

/-- C9 amended: whenever the cause-list request falls back to synthesis (no
portal yields entries) and the synthesis completes, the batch contains between
18 and 35 entries inclusive. -/
theorem cause_list_fallback_size (env : CauseListEnv) (targetDate : DateD)
    (cf : Option String) (hfall : env.realEntries = [])
    (l : List CauseEntry) (t : Nat)
    (h : scrape_cause_list_comprehensive env targetDate cf = some (l, t)) :
    18 ≤ l.length ∧ l.length ≤ 35 := by
  unfold scrape_cause_list_comprehensive at h
  rw [if_neg (by simp [hfall])] at h
  cases hg : generate_sample_cause_list_detailed targetDate cf "real_search_attempted" env.r with
  | some entries =>
    rw [hg] at h
    injection h with h2
    injection h2 with h3 h4
    subst h3
    exact generate_sample_length _ _ _ _ _ hg
  | none =>
    rw [hg] at h
    cases hg2 : generate_sample_cause_list_detailed targetDate cf "search_error"
        (fun n => env.r (n + 1)) with
    | some entries =>
      rw [hg2] at h
      simp only [Option.map_some] at h
      injection h with h2
      injection h2 with h3 h4
      subst h3
      exact generate_sample_length _ _ _ _ _ hg2
    | none => rw [hg2] at h; exact absurd h (by simp)

theorem cause_list_fallback_size_witness :
    18 ≤ c9Pair.1.length ∧ c9Pair.1.length ≤ 35 :=
  cause_list_fallback_size causeEnvEmpty d0 none rfl c9Pair.1 c9Pair.2 rfl

/-- C4 counterexample: with no portal entries and the court filter "Bombay" —
which matches neither sample-court name — both sample-generation runs raise
`IndexError` (`random.choice` on the emptied court list), the second one
outside any handler, so `scrape_cause_list_comprehensive` raises instead of
returning a batch. -/
theorem scrape_cause_list_raises_on_unmatched_filter :
    scrape_cause_list_comprehensive causeEnvEmpty d0 (some "Bombay") = none := rfl

/-- C4 amended: for every target date and every court filter that is either
absent or (lowered) a substring of at least one sample-court display name,
`scrape_cause_list_comprehensive` returns a non-empty entry list together with
an elapsed time and never raises; a filter matching neither sample court makes
the fallback itself raise `IndexError`. -/
theorem scrape_cause_list_total (env : CauseListEnv) (targetDate : DateD)
    (cf : Option String)
    (hcf : filterCourts (sampleCourts "real_search_attempted") cf ≠ []) :
    ∃ l t, scrape_cause_list_comprehensive env targetDate cf = some (l, t) ∧ l ≠ [] := by
  by_cases hre : env.realEntries = []
  · obtain ⟨l, hl, hlen⟩ := buildEntries_total targetDate
      (filterCourts (sampleCourts "real_search_attempted") cf) "real_search_attempted"
      env.r hcf (randint 18 35 (env.r 0)) 0
    refine ⟨l, env.elapsedMs, ?_, ?_⟩
    · unfold scrape_cause_list_comprehensive
      rw [if_neg (by simp [hre])]
      rw [show generate_sample_cause_list_detailed targetDate cf "real_search_attempted" env.r
          = some l from hl]
    · intro hnil
      rw [hnil] at hlen
      have hmod : env.r 0 % 18 < 18 := Nat.mod_lt _ (by norm_num)
      unfold randint at hlen
      simp at hlen
      omega
  · refine ⟨env.realEntries, env.elapsedMs, ?_, hre⟩
    unfold scrape_cause_list_comprehensive
    rw [if_pos hre]

theorem scrape_cause_list_total_witness :
    (scrape_cause_list_comprehensive causeEnvEmpty d0 none).isSome = true ∧
    c9Pair.1 ≠ [] := by
  obtain ⟨l, t, h, hne⟩ := scrape_cause_list_total causeEnvEmpty d0 none (by decide)
  refine ⟨by rw [h]; rfl, ?_⟩
  have hp : c9Pair = (l, t) := by
    unfold c9Pair
    rw [h]
    rfl
  rw [hp]
  exact hne

theorem descrOf_update_flags (c : CaseData) (b1 b2 : Bool) (ds : Option String) :
    descrOf { c with found := b1, real_data_found := b2, data_source := ds } = descrOf c := rfl

theorem descrOf_applySample (c : CaseData) (ct cn : String) (yearQ : Nat)
    (attempts : List AttemptLog) (today : DateD) (r : Nat → Nat)
    (h : c.hearing_time = none) :
    descrOf (applySample c ct cn yearQ attempts today r) =
      sampleDescr ct cn yearQ attempts today r := by
  simp [descrOf, applySample, sampleDescr, baseCase, h]

theorem descrOf_applyDelhiReal (c : CaseData) (yearQ : Nat) (ex : DelhiExtract)
    (today : DateD) (h1 : c.case_category = none) (h2 : c.judgments = none) :
    descrOf (applyDelhiReal c yearQ ex today) = realDescr yearQ ex today := by
  simp [descrOf, applyDelhiReal, realDescr, baseCase, h1, h2]

theorem search_case_eval_err1 (env : SearchEnv) (ct cn : String) (yearQ : Nat)
    (hexc : env.excAt = ExcPoint.atPhase1) :
    search_case_comprehensive env none ct cn yearQ =
      ({ applySample { baseCase ct cn yearQ with error := some env.excMsg }
           ct cn yearQ [] env.today env.r with
         found := true, data_source := some "ERROR_FALLBACK" },
       (if env.redisAvailable then
          some (serializeCaseData
            { applySample { baseCase ct cn yearQ with error := some env.excMsg }
                ct cn yearQ [] env.today env.r with
              found := true, data_source := some "ERROR_FALLBACK" })
        else none),
       portalCalls env ct) := by
  simp [search_case_comprehensive, hexc]

theorem search_case_eval_err2 (env : SearchEnv) (ct cn : String) (yearQ : Nat)
    (hexc : env.excAt = ExcPoint.atPhase2) :
    search_case_comprehensive env none ct cn yearQ =
      ({ applySample { baseCase ct cn yearQ with
            search_attempts := phase1Attempts env ct, error := some env.excMsg }
           ct cn yearQ [] env.today env.r with
         found := true, data_source := some "ERROR_FALLBACK" },
       (if env.redisAvailable then
          some (serializeCaseData
            { applySample { baseCase ct cn yearQ with
                search_attempts := phase1Attempts env ct, error := some env.excMsg }
                ct cn yearQ [] env.today env.r with
              found := true, data_source := some "ERROR_FALLBACK" })
        else none),
       portalCalls env ct) := by
  simp [search_case_comprehensive, hexc]

theorem search_case_eval_err3 (env : SearchEnv) (ct cn : String) (yearQ : Nat)
    (hexc : env.excAt = ExcPoint.atPhase3) :
    search_case_comprehensive env none ct cn yearQ =
      ({ applySample { baseCase ct cn yearQ with
            search_attempts := phase1Attempts env ct ++ phase2Attempts env,
            error := some env.excMsg }
           ct cn yearQ [] env.today env.r with
         found := true, data_source := some "ERROR_FALLBACK" },
       (if env.redisAvailable then
          some (serializeCaseData
            { applySample { baseCase ct cn yearQ with
                search_attempts := phase1Attempts env ct ++ phase2Attempts env,
                error := some env.excMsg }
                ct cn yearQ [] env.today env.r with
              found := true, data_source := some "ERROR_FALLBACK" })
        else none),
       portalCalls env ct) := by
  simp [search_case_comprehensive, hexc]

theorem search_case_eval_sample_none (env : SearchEnv) (ct cn : String) (yearQ : Nat)
    (hexc : env.excAt = ExcPoint.never) (hdel : env.delhi = none) :
    search_case_comprehensive env none ct cn yearQ =
      ({ applySample { baseCase ct cn yearQ with
            search_attempts := phase1Attempts env ct ++ phase2Attempts env ++ phase3Attempts env }
           ct cn yearQ
           (phase1Attempts env ct ++ phase2Attempts env ++ phase3Attempts env)
           env.today env.r with
         found := true, data_source := some "REAL_PORTAL_INFORMED_SAMPLE" },
       (if env.redisAvailable then
          some (serializeCaseData
            { applySample { baseCase ct cn yearQ with
                search_attempts := phase1Attempts env ct ++ phase2Attempts env ++ phase3Attempts env }
                ct cn yearQ
                (phase1Attempts env ct ++ phase2Attempts env ++ phase3Attempts env)
                env.today env.r with
              found := true, data_source := some "REAL_PORTAL_INFORMED_SAMPLE" })
        else none),
       portalCalls env ct) := by
  simp [search_case_comprehensive, hexc, hdel]

theorem search_case_eval_sample_noreal (env : SearchEnv) (ct cn : String) (yearQ : Nat)
    (d : DelhiInfo) (hexc : env.excAt = ExcPoint.never) (hdel : env.delhi = some d)
    (hreal : d.real = none) :
    search_case_comprehensive env none ct cn yearQ =
      ({ applySample { baseCase ct cn yearQ with
            search_attempts := phase1Attempts env ct ++ phase2Attempts env ++ phase3Attempts env }
           ct cn yearQ
           (phase1Attempts env ct ++ phase2Attempts env ++ phase3Attempts env)
           env.today env.r with
         found := true, data_source := some "REAL_PORTAL_INFORMED_SAMPLE" },
       (if env.redisAvailable then
          some (serializeCaseData
            { applySample { baseCase ct cn yearQ with
                search_attempts := phase1Attempts env ct ++ phase2Attempts env ++ phase3Attempts env }
                ct cn yearQ
                (phase1Attempts env ct ++ phase2Attempts env ++ phase3Attempts env)
                env.today env.r with
              found := true, data_source := some "REAL_PORTAL_INFORMED_SAMPLE" })
        else none),
       portalCalls env ct) := by
  simp [search_case_comprehensive, hexc, hdel, hreal]

theorem search_case_eval_real (env : SearchEnv) (ct cn : String) (yearQ : Nat)
    (d : DelhiInfo) (ex : DelhiExtract) (hexc : env.excAt = ExcPoint.never)
    (hdel : env.delhi = some d) (hreal : d.real = some ex) :
    search_case_comprehensive env none ct cn yearQ =
      ({ applyDelhiReal { baseCase ct cn yearQ with
            search_attempts := phase1Attempts env ct ++ phase2Attempts env ++ phase3Attempts env }
           yearQ ex env.today with
         found := true, real_data_found := true,
         data_source := some "DELHI_HC_DIRECT_REAL" },
       none, portalCalls env ct) := by
  simp [search_case_comprehensive, hexc, hdel, hreal]

theorem search_case_hit (env : SearchEnv) (c : CaseData) (ct cn : String) (yearQ : Nat)
    (hA : env.redisAvailable = true) :
    search_case_comprehensive env (some c) ct cn yearQ = ({ c with cached := true }, some c, 0) := by
  unfold search_case_comprehensive
  rw [if_pos (by simp [hA])]
  rfl

theorem isRealPath_false_of_exc (env : SearchEnv) (p : ExcPoint)
    (hexc : env.excAt = p) (hp : p ≠ ExcPoint.never) : isRealPath env = false := by
  simp [isRealPath, hexc]
  intro h
  exact absurd h hp

/-- C2: on every cache-miss run, `search_case_comprehensive` returns a record
with `found=true` whose `data_source` realizes exactly one of the two spec
roles: the real-portal role (concrete label `DELHI_HC_DIRECT_REAL`, every
descriptive field equal to what the extraction path dictates) or the
synthetic-fallback role (concrete labels `REAL_PORTAL_INFORMED_SAMPLE` and
`ERROR_FALLBACK`, every descriptive field equal to what the synthesis policy
dictates); no record mixes descriptive fields from both paths. -/
theorem search_case_dichotomy (env : SearchEnv) (ct cn : String) (yearQ : Nat) :
    (search_case_comprehensive env none ct cn yearQ).1.found = true ∧
    ((isRealPath env = true ∧
       (search_case_comprehensive env none ct cn yearQ).1.data_source =
         some "DELHI_HC_DIRECT_REAL" ∧
       ∃ ex, descrOf (search_case_comprehensive env none ct cn yearQ).1 =
         realDescr yearQ ex env.today) ∨
     (isRealPath env = false ∧
       ((search_case_comprehensive env none ct cn yearQ).1.data_source =
          some "REAL_PORTAL_INFORMED_SAMPLE" ∨
        (search_case_comprehensive env none ct cn yearQ).1.data_source =
          some "ERROR_FALLBACK") ∧
       ∃ atts, descrOf (search_case_comprehensive env none ct cn yearQ).1 =
         sampleDescr ct cn yearQ atts env.today env.r)) := by
  cases hexc : env.excAt with
  | atPhase1 =>
    rw [search_case_eval_err1 env ct cn yearQ hexc]
    exact ⟨rfl, Or.inr ⟨isRealPath_false_of_exc env _ hexc (by decide), Or.inr rfl,
      ⟨[], descrOf_applySample { baseCase ct cn yearQ with error := some env.excMsg }
        ct cn yearQ [] env.today env.r rfl⟩⟩⟩
  | atPhase2 =>
    rw [search_case_eval_err2 env ct cn yearQ hexc]
    exact ⟨rfl, Or.inr ⟨isRealPath_false_of_exc env _ hexc (by decide), Or.inr rfl,
      ⟨[], descrOf_applySample { baseCase ct cn yearQ with
        search_attempts := phase1Attempts env ct, error := some env.excMsg }
        ct cn yearQ [] env.today env.r rfl⟩⟩⟩
  | atPhase3 =>
    rw [search_case_eval_err3 env ct cn yearQ hexc]
    exact ⟨rfl, Or.inr ⟨isRealPath_false_of_exc env _ hexc (by decide), Or.inr rfl,
      ⟨[], descrOf_applySample { baseCase ct cn yearQ with
        search_attempts := phase1Attempts env ct ++ phase2Attempts env,
        error := some env.excMsg }
        ct cn yearQ [] env.today env.r rfl⟩⟩⟩
  | never =>
    cases hdel : env.delhi with
    | none =>
      rw [search_case_eval_sample_none env ct cn yearQ hexc hdel]
      exact ⟨rfl, Or.inr ⟨by simp [isRealPath, hexc, hdel], Or.inl rfl,
        ⟨phase1Attempts env ct ++ phase2Attempts env ++ phase3Attempts env,
         descrOf_applySample { baseCase ct cn yearQ with
           search_attempts := phase1Attempts env ct ++ phase2Attempts env ++ phase3Attempts env }
           ct cn yearQ _ env.today env.r rfl⟩⟩⟩
    | some d =>
      cases hreal : d.real with
      | none =>
        rw [search_case_eval_sample_noreal env ct cn yearQ d hexc hdel hreal]
        exact ⟨rfl, Or.inr ⟨by simp [isRealPath, hexc, hdel, hreal], Or.inl rfl,
          ⟨phase1Attempts env ct ++ phase2Attempts env ++ phase3Attempts env,
           descrOf_applySample { baseCase ct cn yearQ with
             search_attempts := phase1Attempts env ct ++ phase2Attempts env ++ phase3Attempts env }
             ct cn yearQ _ env.today env.r rfl⟩⟩⟩
      | some ex =>
        rw [search_case_eval_real env ct cn yearQ d ex hexc hdel hreal]
        exact ⟨rfl, Or.inl ⟨by simp [isRealPath, hexc, hdel, hreal], rfl,
          ⟨ex, descrOf_applyDelhiReal { baseCase ct cn yearQ with
            search_attempts := phase1Attempts env ct ++ phase2Attempts env ++ phase3Attempts env }
            yearQ ex env.today rfl rfl⟩⟩⟩

/-- C1: on a cache-miss run whose record was synthesized (not extracted from a
portal), the record is distinguishable from authentic portal data: its
`data_source` is one of the two synthetic labels, which differ from the
real-portal label `DELHI_HC_DIRECT_REAL`; moreover `real_data_found` stays
`false` and the synthesis marker `real_portal_analysis=True` is present —
synthetic data is never labeled as real. -/
theorem synthetic_labeled_distinct (env : SearchEnv) (ct cn : String) (yearQ : Nat)
    (h : isRealPath env = false) :
    ((search_case_comprehensive env none ct cn yearQ).1.data_source =
       some "REAL_PORTAL_INFORMED_SAMPLE" ∨
     (search_case_comprehensive env none ct cn yearQ).1.data_source =
       some "ERROR_FALLBACK") ∧
    (search_case_comprehensive env none ct cn yearQ).1.data_source ≠
      some "DELHI_HC_DIRECT_REAL" ∧
    (search_case_comprehensive env none ct cn yearQ).1.real_data_found = false ∧
    (search_case_comprehensive env none ct cn yearQ).1.real_portal_analysis = some true := by
  cases hexc : env.excAt with
  | atPhase1 =>
    rw [search_case_eval_err1 env ct cn yearQ hexc]
    exact ⟨Or.inr rfl, by simp, rfl, rfl⟩
  | atPhase2 =>
    rw [search_case_eval_err2 env ct cn yearQ hexc]
    exact ⟨Or.inr rfl, by simp, rfl, rfl⟩
  | atPhase3 =>
    rw [search_case_eval_err3 env ct cn yearQ hexc]
    exact ⟨Or.inr rfl, by simp, rfl, rfl⟩
  | never =>
    cases hdel : env.delhi with
    | none =>
      rw [search_case_eval_sample_none env ct cn yearQ hexc hdel]
      exact ⟨Or.inl rfl, by simp, rfl, rfl⟩
    | some d =>
      cases hreal : d.real with
      | none =>
        rw [search_case_eval_sample_noreal env ct cn yearQ d hexc hdel hreal]
        exact ⟨Or.inl rfl, by simp, rfl, rfl⟩
      | some ex =>
        rw [isRealPath] at h
        simp [hexc, hdel, hreal] at h

theorem synthetic_labeled_distinct_witness :
    ((search_case_comprehensive envSynth none "WP" "123" 2024).1.data_source =
       some "REAL_PORTAL_INFORMED_SAMPLE" ∨
     (search_case_comprehensive envSynth none "WP" "123" 2024).1.data_source =
       some "ERROR_FALLBACK") ∧
    (search_case_comprehensive envSynth none "WP" "123" 2024).1.data_source ≠
      some "DELHI_HC_DIRECT_REAL" ∧
    (search_case_comprehensive envSynth none "WP" "123" 2024).1.real_data_found = false ∧
    (search_case_comprehensive envSynth none "WP" "123" 2024).1.real_portal_analysis =
      some true :=
  synthetic_labeled_distinct envSynth "WP" "123" 2024 rfl

theorem cache_after_real_miss (env : SearchEnv) (ct cn : String) (yearQ : Nat)
    (h : isRealPath env = true) :
    (search_case_comprehensive env none ct cn yearQ).2.1 = none := by
  cases hexc : env.excAt with
  | atPhase1 => rw [isRealPath] at h; simp [hexc] at h
  | atPhase2 => rw [isRealPath] at h; simp [hexc] at h
  | atPhase3 => rw [isRealPath] at h; simp [hexc] at h
  | never =>
    cases hdel : env.delhi with
    | none => rw [isRealPath] at h; simp [hexc, hdel] at h
    | some d =>
      cases hreal : d.real with
      | none => rw [isRealPath] at h; simp [hexc, hdel, hreal] at h
      | some ex => rw [search_case_eval_real env ct cn yearQ d ex hexc hdel hreal]

theorem cache_after_synth_miss (env : SearchEnv) (ct cn : String) (yearQ : Nat)
    (hA : env.redisAvailable = true) (h : isRealPath env = false) :
    (search_case_comprehensive env none ct cn yearQ).2.1 =
      some (serializeCaseData (search_case_comprehensive env none ct cn yearQ).1) := by
  cases hexc : env.excAt with
  | atPhase1 => rw [search_case_eval_err1 env ct cn yearQ hexc]; simp [hA]
  | atPhase2 => rw [search_case_eval_err2 env ct cn yearQ hexc]; simp [hA]
  | atPhase3 => rw [search_case_eval_err3 env ct cn yearQ hexc]; simp [hA]
  | never =>
    cases hdel : env.delhi with
    | none => rw [search_case_eval_sample_none env ct cn yearQ hexc hdel]; simp [hA]
    | some d =>
      cases hreal : d.real with
      | none => rw [search_case_eval_sample_noreal env ct cn yearQ d hexc hdel hreal]; simp [hA]
      | some ex => rw [isRealPath] at h; simp [hexc, hdel, hreal] at h

/-- C6 counterexample: with Redis available and the Delhi direct search finding
the real case, the returned record is the real one but the cache is left
untouched — the early return at scraper.py line 123 skips the cache write of
lines 157-159, so the final returned record is not always stored. -/
theorem search_case_real_not_cached :
    envReal.redisAvailable = true ∧
    (search_case_comprehensive envReal none "WP" "123" 2024).1.data_source =
      some "DELHI_HC_DIRECT_REAL" ∧
    (search_case_comprehensive envReal none "WP" "123" 2024).1.found = true ∧
    (search_case_comprehensive envReal none "WP" "123" 2024).2.1 = none :=
  ⟨rfl, rfl, rfl, rfl⟩

/-- C6 amended: whenever the cache collaborator is available, `search_case`
stores the final returned record in the cache before returning on the sample
and error-fallback paths; the real-portal path instead returns at line 123
without caching anything. -/
theorem search_case_cache_policy (env : SearchEnv) (ct cn : String) (yearQ : Nat)
    (hA : env.redisAvailable = true) :
    (isRealPath env = true →
      (search_case_comprehensive env none ct cn yearQ).2.1 = none) ∧
    (isRealPath env = false →
      (search_case_comprehensive env none ct cn yearQ).2.1 =
        some (serializeCaseData (search_case_comprehensive env none ct cn yearQ).1)) :=
  ⟨fun h => cache_after_real_miss env ct cn yearQ h,
   fun h => cache_after_synth_miss env ct cn yearQ hA h⟩

theorem search_case_cache_policy_witness :
    (search_case_comprehensive envReal none "WP" "123" 2024).2.1 = none ∧
    (search_case_comprehensive envSynth none "WP" "123" 2024).2.1 =
      some (serializeCaseData (search_case_comprehensive envSynth none "WP" "123" 2024).1) :=
  ⟨(search_case_cache_policy envReal "WP" "123" 2024 rfl).1 rfl,
   (search_case_cache_policy envSynth "WP" "123" 2024 rfl).2 rfl⟩

/-- C5 counterexample: two identical queries within the TTL window do not
return bit-identical payloads: the first call's record carries `cached=False`
(and `date` objects) while the second call returns the JSON round-trip of the
stored record with `cached=True` (and ISO date strings). -/
theorem search_case_second_call_differs :
    (search_case_comprehensive envSynth
       (search_case_comprehensive envSynth none "WP" "123" 2024).2.1 "WP" "123" 2024).1 ≠
    (search_case_comprehensive envSynth none "WP" "123" 2024).1 := by
  decide

/-- C5 amended: when the first call took the synthesis path (the real path
caches nothing) and the cache collaborator is available, a second call with
the identical query within the TTL window hits the cache, contacts no portal,
and returns exactly the first record as it round-tripped through the JSON
cache with `cached` set to `true`: identical to the first payload except the
`cached` flag and date fields serialized to ISO strings. -/
theorem search_case_cache_hit_round_trip (env1 env2 : SearchEnv) (ct cn : String)
    (yearQ : Nat) (h1 : env1.redisAvailable = true) (h2 : env2.redisAvailable = true)
    (hsyn : isRealPath env1 = false) :
    (search_case_comprehensive env2
       (search_case_comprehensive env1 none ct cn yearQ).2.1 ct cn yearQ).1 =
      { serializeCaseData (search_case_comprehensive env1 none ct cn yearQ).1 with
        cached := true } ∧
    (search_case_comprehensive env2
       (search_case_comprehensive env1 none ct cn yearQ).2.1 ct cn yearQ).1.cached = true ∧
    (search_case_comprehensive env2
       (search_case_comprehensive env1 none ct cn yearQ).2.1 ct cn yearQ).2.2 = 0 := by
  have hc := cache_after_synth_miss env1 ct cn yearQ h1 hsyn
  rw [hc, search_case_hit env2 _ ct cn yearQ h2]
  exact ⟨rfl, rfl, rfl⟩

theorem search_case_cache_hit_round_trip_witness :
    (search_case_comprehensive envSynth
       (search_case_comprehensive envSynth none "WP" "123" 2024).2.1 "WP" "123" 2024).1 =
      { serializeCaseData (search_case_comprehensive envSynth none "WP" "123" 2024).1 with
        cached := true } ∧
    (search_case_comprehensive envSynth
       (search_case_comprehensive envSynth none "WP" "123" 2024).2.1 "WP" "123" 2024).2.2 = 0 :=
  ⟨(search_case_cache_hit_round_trip envSynth envSynth "WP" "123" 2024 rfl rfl rfl).1,
   (search_case_cache_hit_round_trip envSynth envSynth "WP" "123" 2024 rfl rfl rfl).2.2⟩
